import Mathlib

/-!
Verification of the ACI 318 reinforced-concrete beam strength calculator
(`src/utils/beamCalculations.ts`).

The calculation engine is a pure function pipeline over JavaScript `number`s
(IEEE-754 doubles).  We give two shallow embeddings:

* `BeamCalc` — the main embedding over exact reals `ℝ`, the idealisation of
  double-precision arithmetic used for the functional claims (every formula in
  the source is closed-form rational arithmetic plus one square root).
* `BeamCalcJS` — an embedding whose number type `JSNum` keeps the IEEE-754
  special values (`+∞`, `-∞`, `NaN`) with exact real arithmetic on finite
  values, used for the error-handling claim about degenerate (division by
  zero) inputs, where the special values — not rounding — are the point.

Boolean result fields of the source are embedded as `Prop` fields computed by
the same comparisons the source performs.
-/

namespace BeamCalc

/-- `BeamInput` from the source: width `b`, height `h`, effective depth `d`
(inches), concrete strength `fc`, steel yield strength `fy` (psi), tension
steel area `As` (sq. inches), and a bar count used only for display. -/
structure BeamInput where
  b : ℝ
  h : ℝ
  d : ℝ
  fc : ℝ
  fy : ℝ
  As : ℝ
  numBars : ℝ

/-- `BeamResults` from the source: ratios, stress-block and neutral-axis
depths, moments, the strength-reduction factor, the three checks, and the two
strains. -/
structure BeamResults where
  rho : ℝ
  rhoMin : ℝ
  rhoMax : ℝ
  rhoBalanced : ℝ
  a : ℝ
  c : ℝ
  Mn : ℝ
  phiMn : ℝ
  phi : ℝ
  isUnderReinforced : Prop
  meetsMinSteel : Prop
  isValid : Prop
  epsilonT : ℝ
  epsilonC : ℝ

/-- Constant `BETA1_FC_4000` from the source. -/
def BETA1_FC_4000 : ℝ := 0.85

/-- Constant `BETA1_FC_8000` from the source. -/
def BETA1_FC_8000 : ℝ := 0.65

/-- Constant `EPSILON_C_MAX` from the source (maximum concrete strain). -/
def EPSILON_C_MAX : ℝ := 0.003

/-- Constant `EPSILON_Y_MIN` from the source (minimum steel strain for the
tension-controlled classification). -/
def EPSILON_Y_MIN : ℝ := 0.005

open Classical in
/-- `calculateBeta1` from the source (ACI 318-14 22.2.2.4.3). -/
noncomputable def calculateBeta1 (fc : ℝ) : ℝ :=
  if fc ≤ 4000 then
    BETA1_FC_4000
  else if fc ≥ 8000 then
    BETA1_FC_8000
  else
    BETA1_FC_4000 - ((fc - 4000) / 4000) * (BETA1_FC_4000 - BETA1_FC_8000)

/-- `calculateRhoMin` from the source (ACI 318-14 9.6.1.2). -/
noncomputable def calculateRhoMin (fc fy : ℝ) : ℝ :=
  let rhoMin1 := (3 * Real.sqrt fc) / fy
  let rhoMin2 := 200 / fy
  max rhoMin1 rhoMin2

/-- `calculateRhoBalanced` from the source. -/
noncomputable def calculateRhoBalanced (fc fy : ℝ) : ℝ :=
  let beta1 := calculateBeta1 fc
  let epsilonY := fy / 29000000
  (0.85 * fc * beta1 / fy) * (EPSILON_C_MAX / (EPSILON_C_MAX + epsilonY))

/-- `calculateRhoMax` from the source (75% of balanced). -/
noncomputable def calculateRhoMax (fc fy : ℝ) : ℝ :=
  0.75 * calculateRhoBalanced fc fy

open Classical in
/-- `calculatePhi` from the source (ACI 318-14 21.2.2). -/
noncomputable def calculatePhi (epsilonT : ℝ) : ℝ :=
  if epsilonT ≥ EPSILON_Y_MIN then
    0.9
  else if epsilonT ≤ 0.002 then
    0.65
  else
    0.65 + (epsilonT - 0.002) / (EPSILON_Y_MIN - 0.002) * (0.9 - 0.65)

/-- `calculateBeamStrength` from the source: the main pipeline. -/
noncomputable def calculateBeamStrength (input : BeamInput) : BeamResults :=
  let rho := input.As / (input.b * input.d)
  let rhoMin := calculateRhoMin input.fc input.fy
  let rhoBalanced := calculateRhoBalanced input.fc input.fy
  let rhoMax := calculateRhoMax input.fc input.fy
  let a := (input.As * input.fy) / (0.85 * input.fc * input.b)
  let beta1 := calculateBeta1 input.fc
  let c := a / beta1
  let epsilonC := EPSILON_C_MAX
  let epsilonT := epsilonC * (input.d - c) / c
  let phi := calculatePhi epsilonT
  let MnInchKips := input.As * input.fy * (input.d - a / 2)
  let Mn := MnInchKips / 12
  let phiMn := phi * Mn
  let isUnderReinforced := rho ≤ rhoMax
  let meetsMinSteel := rho ≥ rhoMin
  let isValid := isUnderReinforced ∧ meetsMinSteel ∧ input.d < input.h ∧ input.As > 0
  { rho := rho
    rhoMin := rhoMin
    rhoMax := rhoMax
    rhoBalanced := rhoBalanced
    a := a
    c := c
    Mn := Mn
    phiMn := phiMn
    phi := phi
    isUnderReinforced := isUnderReinforced
    meetsMinSteel := meetsMinSteel
    isValid := isValid
    epsilonT := epsilonT
    epsilonC := epsilonC }

open Classical in
/-- `getBarArea` from the source: the fixed lookup keyed by bar size, with
`|| 0` fallback for unrecognized keys (every stored area is nonzero, so the
JavaScript `||` fallback fires exactly on missing keys). -/
noncomputable def getBarArea (barSize : ℝ) : ℝ :=
  if barSize = 3 then 0.11
  else if barSize = 4 then 0.20
  else if barSize = 5 then 0.31
  else if barSize = 6 then 0.44
  else if barSize = 7 then 0.60
  else if barSize = 8 then 0.79
  else if barSize = 9 then 1.00
  else if barSize = 10 then 1.27
  else if barSize = 11 then 1.56
  else if barSize = 14 then 2.25
  else if barSize = 18 then 4.00
  else 0

/-- `getAvailableBarSizes` from the source. -/
def getAvailableBarSizes : List ℝ :=
  [3, 4, 5, 6, 7, 8, 9, 10, 11, 14, 18]

end BeamCalc

namespace BeamCalcJS

/-- A JavaScript `number`: either a finite value (modelled exactly as a real)
or one of the IEEE-754 special values `+∞`, `-∞`, `NaN`. -/
inductive JSNum where
  | fin : ℝ → JSNum
  | posInf : JSNum
  | negInf : JSNum
  | nan : JSNum

namespace JSNum

/-- A `JSNum` is finite iff it is neither infinite nor `NaN`. -/
def isFinite : JSNum → Bool
  | fin _ => true
  | posInf => false
  | negInf => false
  | nan => false

/-- IEEE-754 addition on the extended values (finite arithmetic exact). -/
noncomputable def add : JSNum → JSNum → JSNum
  | fin x, fin y => fin (x + y)
  | fin _, posInf => posInf
  | fin _, negInf => negInf
  | fin _, nan => nan
  | posInf, fin _ => posInf
  | posInf, posInf => posInf
  | posInf, negInf => nan
  | posInf, nan => nan
  | negInf, fin _ => negInf
  | negInf, posInf => nan
  | negInf, negInf => negInf
  | negInf, nan => nan
  | nan, _ => nan

/-- IEEE-754 subtraction on the extended values (finite arithmetic exact). -/
noncomputable def sub : JSNum → JSNum → JSNum
  | fin x, fin y => fin (x - y)
  | fin _, posInf => negInf
  | fin _, negInf => posInf
  | fin _, nan => nan
  | posInf, fin _ => posInf
  | posInf, posInf => nan
  | posInf, negInf => posInf
  | posInf, nan => nan
  | negInf, fin _ => negInf
  | negInf, posInf => negInf
  | negInf, negInf => nan
  | negInf, nan => nan
  | nan, _ => nan

open Classical in
/-- IEEE-754 multiplication on the extended values: `0 * ±∞ = NaN`, sign rules
otherwise (finite arithmetic exact). -/
noncomputable def mul : JSNum → JSNum → JSNum
  | fin x, fin y => fin (x * y)
  | fin x, posInf => if 0 < x then posInf else if x < 0 then negInf else nan
  | fin x, negInf => if 0 < x then negInf else if x < 0 then posInf else nan
  | fin _, nan => nan
  | posInf, fin y => if 0 < y then posInf else if y < 0 then negInf else nan
  | posInf, posInf => posInf
  | posInf, negInf => negInf
  | posInf, nan => nan
  | negInf, fin y => if 0 < y then negInf else if y < 0 then posInf else nan
  | negInf, posInf => negInf
  | negInf, negInf => posInf
  | negInf, nan => nan
  | nan, _ => nan

open Classical in
/-- IEEE-754 division on the extended values: a nonzero finite value divided
by (positive) zero is a signed infinity, `0 / 0` and `±∞ / ±∞` are `NaN`,
finite over infinite is `0` (finite arithmetic exact; the source never
produces a negative zero divisor, so zero is treated as positive). -/
noncomputable def div : JSNum → JSNum → JSNum
  | fin x, fin y =>
      if y = 0 then (if 0 < x then posInf else if x < 0 then negInf else nan)
      else fin (x / y)
  | fin _, posInf => fin 0
  | fin _, negInf => fin 0
  | fin _, nan => nan
  | posInf, fin y => if 0 ≤ y then posInf else negInf
  | posInf, posInf => nan
  | posInf, negInf => nan
  | posInf, nan => nan
  | negInf, fin y => if 0 ≤ y then negInf else posInf
  | negInf, posInf => nan
  | negInf, negInf => nan
  | negInf, nan => nan
  | nan, _ => nan

/-- IEEE-754 comparison `<=`: any comparison with `NaN` is false. -/
def le : JSNum → JSNum → Prop
  | fin x, fin y => x ≤ y
  | fin _, posInf => True
  | fin _, negInf => False
  | fin _, nan => False
  | posInf, fin _ => False
  | posInf, posInf => True
  | posInf, negInf => False
  | posInf, nan => False
  | negInf, nan => False
  | negInf, _ => True
  | nan, _ => False

/-- IEEE-754 comparison `<`: any comparison with `NaN` is false. -/
def lt : JSNum → JSNum → Prop
  | fin x, fin y => x < y
  | fin _, posInf => True
  | fin _, negInf => False
  | fin _, nan => False
  | posInf, _ => False
  | negInf, fin _ => True
  | negInf, posInf => True
  | negInf, negInf => False
  | negInf, nan => False
  | nan, _ => False

open Classical in
/-- `Math.sqrt`: `NaN` on negative or `NaN` arguments, `+∞` on `+∞`. -/
noncomputable def sqrt : JSNum → JSNum
  | fin x => if x < 0 then nan else fin (Real.sqrt x)
  | posInf => posInf
  | negInf => nan
  | nan => nan

/-- `Math.max` of two numbers: `NaN` if either argument is `NaN`. -/
noncomputable def maxJS : JSNum → JSNum → JSNum
  | fin x, fin y => fin (max x y)
  | fin _, posInf => posInf
  | fin x, negInf => fin x
  | fin _, nan => nan
  | posInf, fin _ => posInf
  | posInf, posInf => posInf
  | posInf, negInf => posInf
  | posInf, nan => nan
  | negInf, fin y => fin y
  | negInf, posInf => posInf
  | negInf, negInf => negInf
  | negInf, nan => nan
  | nan, _ => nan

end JSNum

noncomputable instance : Add JSNum := ⟨JSNum.add⟩

noncomputable instance : Sub JSNum := ⟨JSNum.sub⟩

noncomputable instance : Mul JSNum := ⟨JSNum.mul⟩

noncomputable instance : Div JSNum := ⟨JSNum.div⟩

instance : LE JSNum := ⟨JSNum.le⟩

instance : LT JSNum := ⟨JSNum.lt⟩

open JSNum Classical in
/-- `calculateBeta1` from the source, over JavaScript number semantics. -/
noncomputable def calculateBeta1 (fc : JSNum) : JSNum :=
  if fc ≤ fin 4000 then
    fin BeamCalc.BETA1_FC_4000
  else if fin 8000 ≤ fc then
    fin BeamCalc.BETA1_FC_8000
  else
    fin BeamCalc.BETA1_FC_4000 -
      ((fc - fin 4000) / fin 4000) *
        (fin BeamCalc.BETA1_FC_4000 - fin BeamCalc.BETA1_FC_8000)

open JSNum in
/-- `calculateRhoMin` from the source, over JavaScript number semantics. -/
noncomputable def calculateRhoMin (fc fy : JSNum) : JSNum :=
  let rhoMin1 := (fin 3 * JSNum.sqrt fc) / fy
  let rhoMin2 := fin 200 / fy
  JSNum.maxJS rhoMin1 rhoMin2

open JSNum in
/-- `calculateRhoBalanced` from the source, over JavaScript number
semantics. -/
noncomputable def calculateRhoBalanced (fc fy : JSNum) : JSNum :=
  let beta1 := calculateBeta1 fc
  let epsilonY := fy / fin 29000000
  (fin 0.85 * fc * beta1 / fy) *
    (fin BeamCalc.EPSILON_C_MAX / (fin BeamCalc.EPSILON_C_MAX + epsilonY))

open JSNum in
/-- `calculateRhoMax` from the source, over JavaScript number semantics. -/
noncomputable def calculateRhoMax (fc fy : JSNum) : JSNum :=
  fin 0.75 * calculateRhoBalanced fc fy

open JSNum Classical in
/-- `calculatePhi` from the source, over JavaScript number semantics. -/
noncomputable def calculatePhi (epsilonT : JSNum) : JSNum :=
  if fin BeamCalc.EPSILON_Y_MIN ≤ epsilonT then
    fin 0.9
  else if epsilonT ≤ fin 0.002 then
    fin 0.65
  else
    fin 0.65 +
      (epsilonT - fin 0.002) / (fin BeamCalc.EPSILON_Y_MIN - fin 0.002) *
        (fin 0.9 - fin 0.65)

/-- `BeamResults` over JavaScript number semantics. -/
structure BeamResultsJS where
  rho : JSNum
  rhoMin : JSNum
  rhoMax : JSNum
  rhoBalanced : JSNum
  a : JSNum
  c : JSNum
  Mn : JSNum
  phiMn : JSNum
  phi : JSNum
  isUnderReinforced : Prop
  meetsMinSteel : Prop
  isValid : Prop
  epsilonT : JSNum
  epsilonC : JSNum

open JSNum in
/-- `calculateBeamStrength` from the source, over JavaScript number
semantics: finite inputs flow through IEEE-754 extended arithmetic, so
division by zero produces infinities and `NaN`s exactly as in the running
program. -/
noncomputable def calculateBeamStrength (input : BeamCalc.BeamInput) : BeamResultsJS :=
  let b := fin input.b
  let h := fin input.h
  let d := fin input.d
  let fc := fin input.fc
  let fy := fin input.fy
  let As := fin input.As
  let rho := As / (b * d)
  let rhoMin := calculateRhoMin fc fy
  let rhoBalanced := calculateRhoBalanced fc fy
  let rhoMax := calculateRhoMax fc fy
  let a := (As * fy) / (fin 0.85 * fc * b)
  let beta1 := calculateBeta1 fc
  let c := a / beta1
  let epsilonC := fin BeamCalc.EPSILON_C_MAX
  let epsilonT := epsilonC * (d - c) / c
  let phi := calculatePhi epsilonT
  let MnInchKips := As * fy * (d - a / fin 2)
  let Mn := MnInchKips / fin 12
  let phiMn := phi * Mn
  let isUnderReinforced := rho ≤ rhoMax
  let meetsMinSteel := rhoMin ≤ rho
  let isValid := isUnderReinforced ∧ meetsMinSteel ∧ d < h ∧ fin 0 < As
  { rho := rho
    rhoMin := rhoMin
    rhoMax := rhoMax
    rhoBalanced := rhoBalanced
    a := a
    c := c
    Mn := Mn
    phiMn := phiMn
    phi := phi
    isUnderReinforced := isUnderReinforced
    meetsMinSteel := meetsMinSteel
    isValid := isValid
    epsilonT := epsilonT
    epsilonC := epsilonC }

end BeamCalcJS

/-- Scenario 1 of the spec: `b=12, h=24, d=21.5, fc=4000, fy=60000, As=3.16`
(four #8 bars). -/
def scenario1 : BeamCalc.BeamInput :=
  ⟨12, 24, 21.5, 4000, 60000, 3.16, 4⟩

/-- A degenerate section: Scenario 1's values with a zero width `b = 0`. -/
def zeroWidthSection : BeamCalc.BeamInput :=
  ⟨0, 24, 21.5, 4000, 60000, 3.16, 4⟩

namespace BeamCalc

/-- Shared helper: `calculateBeta1` at `fc = 4000` takes the first branch. -/
lemma beta1_at_4000 : calculateBeta1 4000 = 0.85 := by
  rw [calculateBeta1, if_pos (by norm_num : (4000 : ℝ) ≤ 4000)]
  rfl

/-- C1: for every `BeamSection` input, `calculateBeamStrength` computes the
numeric result fields by exactly the spec's closed-form pipeline:
`rho = As/(b*d)`, `a = As*fy/(0.85*fc*b)`, `c = a/beta1` with `beta1` from
the Beta1Resolver, `epsilonC = 0.003`, `epsilonT = 0.003*(d-c)/c`,
`Mn = As*fy*(d-a/2)/12`, `phi` from the StrainAndPhiResolver applied to
`epsilonT`, and `phiMn = phi*Mn`. -/
theorem calculateBeamStrength_pipeline_spec (input : BeamInput) :
    (calculateBeamStrength input).rho = input.As / (input.b * input.d) ∧
    (calculateBeamStrength input).a =
      input.As * input.fy / (0.85 * input.fc * input.b) ∧
    (calculateBeamStrength input).c =
      (calculateBeamStrength input).a / calculateBeta1 input.fc ∧
    (calculateBeamStrength input).epsilonC = 0.003 ∧
    (calculateBeamStrength input).epsilonT =
      0.003 * (input.d - (calculateBeamStrength input).c) /
        (calculateBeamStrength input).c ∧
    (calculateBeamStrength input).Mn =
      input.As * input.fy * (input.d - (calculateBeamStrength input).a / 2) / 12 ∧
    (calculateBeamStrength input).phi =
      calculatePhi ((calculateBeamStrength input).epsilonT) ∧
    (calculateBeamStrength input).phiMn =
      (calculateBeamStrength input).phi * (calculateBeamStrength input).Mn :=
  ⟨rfl, rfl, rfl, rfl, rfl, rfl, rfl, rfl⟩

/-- C2: the boolean result fields of `calculateBeamStrength` are exactly
`isUnderReinforced = (rho ≤ rhoMax)`, `meetsMinSteel = (rho ≥ rhoMin)` and
`isValid = (isUnderReinforced ∧ meetsMinSteel ∧ d < h ∧ As > 0)`, in terms
of the values in the same result record. -/
theorem calculateBeamStrength_checks_spec (input : BeamInput) :
    ((calculateBeamStrength input).isUnderReinforced ↔
      (calculateBeamStrength input).rho ≤ (calculateBeamStrength input).rhoMax) ∧
    ((calculateBeamStrength input).meetsMinSteel ↔
      (calculateBeamStrength input).rho ≥ (calculateBeamStrength input).rhoMin) ∧
    ((calculateBeamStrength input).isValid ↔
      (calculateBeamStrength input).isUnderReinforced ∧
        (calculateBeamStrength input).meetsMinSteel ∧
        input.d < input.h ∧ input.As > 0) :=
  ⟨Iff.rfl, Iff.rfl, Iff.rfl⟩

/-- C3: `calculateBeta1` returns `0.85` for `fc ≤ 4000` (inclusive), `0.65`
for `fc ≥ 8000` (inclusive), and the linear interpolation
`0.85 - ((fc - 4000)/4000)*0.20` strictly between; the boundary values 4000
and 8000 hit the constant branches. -/
theorem calculateBeta1_piecewise (fc : ℝ) :
    (fc ≤ 4000 → calculateBeta1 fc = 0.85) ∧
    (8000 ≤ fc → calculateBeta1 fc = 0.65) ∧
    (4000 < fc → fc < 8000 →
      calculateBeta1 fc = 0.85 - ((fc - 4000) / 4000) * 0.20) ∧
    calculateBeta1 4000 = 0.85 ∧ calculateBeta1 8000 = 0.65 := by
  refine ⟨?_, ?_, ?_, ?_, ?_⟩
  · intro hle
    rw [calculateBeta1, if_pos hle]
    rfl
  · intro hge
    rw [calculateBeta1, if_neg (by simp only [not_le]; linarith),
      if_pos (show fc ≥ 8000 from hge)]
    rfl
  · intro h1 h2
    rw [calculateBeta1, if_neg (by simp only [not_le]; linarith),
      if_neg (by simp only [ge_iff_le, not_le]; linarith)]
    norm_num [BETA1_FC_4000, BETA1_FC_8000]
  · rw [calculateBeta1, if_pos (by norm_num : (4000 : ℝ) ≤ 4000)]
    rfl
  · rw [calculateBeta1, if_neg (by norm_num : ¬ (8000 : ℝ) ≤ 4000),
      if_pos (by norm_num : (8000 : ℝ) ≥ 8000)]
    rfl

/-- Witness for C3: a point in each branch (`fc = 3000`, `fc = 9000`, and
the interpolated `fc = 5000`). -/
theorem calculateBeta1_piecewise_witness :
    calculateBeta1 3000 = 0.85 ∧ calculateBeta1 9000 = 0.65 ∧
    calculateBeta1 5000 = 0.85 - ((5000 - 4000) / 4000) * 0.20 :=
  ⟨(calculateBeta1_piecewise 3000).1 (by norm_num),
   (calculateBeta1_piecewise 9000).2.1 (by norm_num),
   (calculateBeta1_piecewise 5000).2.2.1 (by norm_num) (by norm_num)⟩

/-- C4: `calculatePhi` returns `0.90` for `epsilonT ≥ 0.005` (inclusive),
`0.65` for `epsilonT ≤ 0.002` (inclusive), and the linear interpolation
`0.65 + (epsilonT - 0.002)/(0.005 - 0.002)*(0.90 - 0.65)` strictly between;
the boundary values 0.005 and 0.002 hit the constant branches. -/
theorem calculatePhi_piecewise (epsilonT : ℝ) :
    (0.005 ≤ epsilonT → calculatePhi epsilonT = 0.90) ∧
    (epsilonT ≤ 0.002 → calculatePhi epsilonT = 0.65) ∧
    (0.002 < epsilonT → epsilonT < 0.005 →
      calculatePhi epsilonT =
        0.65 + (epsilonT - 0.002) / (0.005 - 0.002) * (0.90 - 0.65)) ∧
    calculatePhi 0.005 = 0.90 ∧ calculatePhi 0.002 = 0.65 := by
  refine ⟨?_, ?_, ?_, ?_, ?_⟩
  · intro hge
    rw [calculatePhi, if_pos (show epsilonT ≥ EPSILON_Y_MIN from hge)]
    norm_num
  · intro hle
    rw [calculatePhi,
      if_neg (by simp only [EPSILON_Y_MIN, ge_iff_le, not_le]; linarith),
      if_pos hle]
  · intro h1 h2
    rw [calculatePhi,
      if_neg (by simp only [EPSILON_Y_MIN, ge_iff_le, not_le]; linarith),
      if_neg (by simp only [not_le]; linarith)]
    norm_num [EPSILON_Y_MIN]
  · rw [calculatePhi,
      if_pos (by norm_num [EPSILON_Y_MIN] : (0.005 : ℝ) ≥ EPSILON_Y_MIN)]
    norm_num
  · rw [calculatePhi,
      if_neg (by norm_num [EPSILON_Y_MIN] : ¬ (0.002 : ℝ) ≥ EPSILON_Y_MIN),
      if_pos (le_refl (0.002 : ℝ))]

/-- Witness for C4: a point in each branch (`epsilonT = 1`, `epsilonT = 0`,
and the interpolated `epsilonT = 0.0035`). -/
theorem calculatePhi_piecewise_witness :
    calculatePhi 1 = 0.90 ∧ calculatePhi 0 = 0.65 ∧
    calculatePhi 0.0035 =
      0.65 + (0.0035 - 0.002) / (0.005 - 0.002) * (0.90 - 0.65) :=
  ⟨(calculatePhi_piecewise 1).1 (by norm_num),
   (calculatePhi_piecewise 0).2.1 (by norm_num),
   (calculatePhi_piecewise 0.0035).2.2.1 (by norm_num) (by norm_num)⟩

/-- C5: the reinforcement limits are exactly the spec's formulas:
`rhoMin = max(3*sqrt(fc)/fy, 200/fy)`,
`rhoBalanced = (0.85*fc*beta1/fy)*(0.003/(0.003 + fy/29000000))` with
`beta1` from the Beta1Resolver, and `rhoMax = 0.75*rhoBalanced`. -/
theorem reinforcementLimits_spec (fc fy : ℝ) :
    calculateRhoMin fc fy = max (3 * Real.sqrt fc / fy) (200 / fy) ∧
    calculateRhoBalanced fc fy =
      (0.85 * fc * calculateBeta1 fc / fy) *
        (0.003 / (0.003 + fy / 29000000)) ∧
    calculateRhoMax fc fy = 0.75 * calculateRhoBalanced fc fy :=
  ⟨rfl, rfl, rfl⟩

/-- Shared helper: `calculatePhi` always lands in `[0.65, 0.90]`. -/
lemma calculatePhi_mem (e : ℝ) :
    0.65 ≤ calculatePhi e ∧ calculatePhi e ≤ 0.90 := by
  rw [calculatePhi]
  split_ifs with h1 h2
  · norm_num
  · norm_num
  · simp only [EPSILON_Y_MIN, ge_iff_le, not_le] at h1 h2
    have hd0 : (0 : ℝ) ≤ (e - 0.002) / (EPSILON_Y_MIN - 0.002) :=
      div_nonneg (by linarith) (by norm_num [EPSILON_Y_MIN])
    have hd1 : (e - 0.002) / (EPSILON_Y_MIN - 0.002) ≤ 1 := by
      rw [div_le_one (by norm_num [EPSILON_Y_MIN])]
      simp only [EPSILON_Y_MIN]
      linarith
    constructor
    · nlinarith [hd0]
    · nlinarith [hd1, hd0]

end BeamCalc

namespace BeamCalc

/-- C7: the bar catalog is a fixed total function: `getBarArea` maps the
eleven standard sizes to their areas, returns `0` for every other argument
(in particular `getBarArea 99 = 0`) without signaling an error, and
`getAvailableBarSizes` returns exactly those eleven sizes in strictly
ascending order. -/
theorem barCatalog_spec :
    getBarArea 3 = 0.11 ∧ getBarArea 4 = 0.20 ∧ getBarArea 5 = 0.31 ∧
    getBarArea 6 = 0.44 ∧ getBarArea 7 = 0.60 ∧ getBarArea 8 = 0.79 ∧
    getBarArea 9 = 1.00 ∧ getBarArea 10 = 1.27 ∧ getBarArea 11 = 1.56 ∧
    getBarArea 14 = 2.25 ∧ getBarArea 18 = 4.00 ∧
    (∀ x : ℝ, x ≠ 3 → x ≠ 4 → x ≠ 5 → x ≠ 6 → x ≠ 7 → x ≠ 8 → x ≠ 9 →
      x ≠ 10 → x ≠ 11 → x ≠ 14 → x ≠ 18 → getBarArea x = 0) ∧
    getAvailableBarSizes = [3, 4, 5, 6, 7, 8, 9, 10, 11, 14, 18] ∧
    List.Chain' (fun x y => x < y) getAvailableBarSizes := by
  refine ⟨?_, ?_, ?_, ?_, ?_, ?_, ?_, ?_, ?_, ?_, ?_, ?_, rfl, ?_⟩
  · norm_num [getBarArea]
  · norm_num [getBarArea]
  · norm_num [getBarArea]
  · norm_num [getBarArea]
  · norm_num [getBarArea]
  · norm_num [getBarArea]
  · norm_num [getBarArea]
  · norm_num [getBarArea]
  · norm_num [getBarArea]
  · norm_num [getBarArea]
  · norm_num [getBarArea]
  · intro x h3 h4 h5 h6 h7 h8 h9 h10 h11 h14 h18
    simp only [getBarArea, if_neg h3, if_neg h4, if_neg h5, if_neg h6,
      if_neg h7, if_neg h8, if_neg h9, if_neg h10, if_neg h11, if_neg h14,
      if_neg h18]
  · norm_num [getAvailableBarSizes, List.chain'_cons, List.chain'_singleton]

/-- Witness for C7: the unrecognized size 99 falls through to 0, while the
recognized size 8 yields its catalog area. -/
theorem barCatalog_spec_witness : getBarArea 99 = 0 :=
  barCatalog_spec.2.2.2.2.2.2.2.2.2.2.2.1 99 (by norm_num) (by norm_num)
    (by norm_num) (by norm_num) (by norm_num) (by norm_num) (by norm_num)
    (by norm_num) (by norm_num) (by norm_num) (by norm_num)

/-- Shared helper: the `rho` field of the result, by definition. -/
lemma calcBS_rho (input : BeamInput) :
    (calculateBeamStrength input).rho = input.As / (input.b * input.d) := rfl

/-- Shared helper: the `a` field of the result, by definition. -/
lemma calcBS_a (input : BeamInput) :
    (calculateBeamStrength input).a =
      input.As * input.fy / (0.85 * input.fc * input.b) := rfl

/-- Shared helper: the `c` field of the result, by definition. -/
lemma calcBS_c (input : BeamInput) :
    (calculateBeamStrength input).c =
      (calculateBeamStrength input).a / calculateBeta1 input.fc := rfl

/-- Shared helper: the `epsilonT` field of the result, by definition. -/
lemma calcBS_epsilonT (input : BeamInput) :
    (calculateBeamStrength input).epsilonT =
      EPSILON_C_MAX * (input.d - (calculateBeamStrength input).c) /
        (calculateBeamStrength input).c := rfl

/-- Shared helper: the `phi` field of the result, by definition. -/
lemma calcBS_phi (input : BeamInput) :
    (calculateBeamStrength input).phi =
      calculatePhi ((calculateBeamStrength input).epsilonT) := rfl

/-- Shared helper: the `Mn` field of the result, by definition. -/
lemma calcBS_Mn (input : BeamInput) :
    (calculateBeamStrength input).Mn =
      input.As * input.fy * (input.d - (calculateBeamStrength input).a / 2) /
        12 := rfl

/-- Shared helper: the `phiMn` field of the result, by definition. -/
lemma calcBS_phiMn (input : BeamInput) :
    (calculateBeamStrength input).phiMn =
      (calculateBeamStrength input).phi * (calculateBeamStrength input).Mn := rfl

/-- Shared helper: the `rhoMin` field of the result, by definition. -/
lemma calcBS_rhoMin (input : BeamInput) :
    (calculateBeamStrength input).rhoMin =
      calculateRhoMin input.fc input.fy := rfl

/-- Shared helper: the `rhoMax` field of the result, by definition. -/
lemma calcBS_rhoMax (input : BeamInput) :
    (calculateBeamStrength input).rhoMax =
      calculateRhoMax input.fc input.fy := rfl

/-- Shared helper: the `isValid` field of the result, by definition. -/
lemma calcBS_isValid (input : BeamInput) :
    (calculateBeamStrength input).isValid ↔
      ((calculateBeamStrength input).rho ≤ (calculateBeamStrength input).rhoMax ∧
        (calculateBeamStrength input).rho ≥ (calculateBeamStrength input).rhoMin ∧
        input.d < input.h ∧ input.As > 0) := Iff.rfl

/-- Scenario-1 helper: actual reinforcement ratio. -/
lemma scenario1_rho : (calculateBeamStrength scenario1).rho = 79 / 6450 := by
  rw [calcBS_rho]
  simp only [scenario1]
  norm_num

/-- Scenario-1 helper: stress-block depth. -/
lemma scenario1_a : (calculateBeamStrength scenario1).a = 79 / 17 := by
  rw [calcBS_a]
  simp only [scenario1]
  norm_num

/-- Scenario-1 helper: neutral-axis depth. -/
lemma scenario1_c : (calculateBeamStrength scenario1).c = 1580 / 289 := by
  rw [calcBS_c, scenario1_a]
  show (79 : ℝ) / 17 / calculateBeta1 scenario1.fc = 1580 / 289
  have : scenario1.fc = 4000 := rfl
  rw [this, beta1_at_4000]
  norm_num

/-- Scenario-1 helper: tensile strain. -/
lemma scenario1_epsilonT :
    (calculateBeamStrength scenario1).epsilonT = 27801 / 3160000 := by
  rw [calcBS_epsilonT, scenario1_c]
  show EPSILON_C_MAX * (scenario1.d - 1580 / 289) / (1580 / 289) = 27801 / 3160000
  have : scenario1.d = 21.5 := rfl
  rw [this]
  norm_num [EPSILON_C_MAX]

/-- Scenario-1 helper: strength-reduction factor (tension-controlled). -/
lemma scenario1_phi : (calculateBeamStrength scenario1).phi = 0.9 := by
  rw [calcBS_phi, scenario1_epsilonT, calculatePhi,
    if_pos (by norm_num [EPSILON_Y_MIN] : (27801 : ℝ) / 3160000 ≥ EPSILON_Y_MIN)]

/-- Scenario-1 helper: nominal moment. -/
lemma scenario1_Mn : (calculateBeamStrength scenario1).Mn = 5150800 / 17 := by
  rw [calcBS_Mn, scenario1_a]
  show scenario1.As * scenario1.fy * (scenario1.d - 79 / 17 / 2) / 12 =
    5150800 / 17
  simp only [scenario1]
  norm_num

/-- Scenario-1 helper: design moment. -/
lemma scenario1_phiMn :
    (calculateBeamStrength scenario1).phiMn = 4635720 / 17 := by
  rw [calcBS_phiMn, scenario1_phi, scenario1_Mn]
  norm_num

/-- Scenario-1 helper: maximum reinforcement ratio. -/
lemma scenario1_rhoMax :
    (calculateBeamStrength scenario1).rhoMax = 8381 / 392000 := by
  rw [calcBS_rhoMax]
  show calculateRhoMax scenario1.fc scenario1.fy = 8381 / 392000
  have hfc : scenario1.fc = 4000 := rfl
  have hfy : scenario1.fy = 60000 := rfl
  rw [hfc, hfy]
  simp only [calculateRhoMax, calculateRhoBalanced]
  rw [beta1_at_4000]
  norm_num [EPSILON_C_MAX]

/-- Scenario-1 helper: the minimum-steel check passes. -/
lemma scenario1_meetsMin :
    (calculateBeamStrength scenario1).rhoMin ≤
      (calculateBeamStrength scenario1).rho := by
  rw [calcBS_rhoMin, scenario1_rho]
  show calculateRhoMin scenario1.fc scenario1.fy ≤ 79 / 6450
  have hfc : scenario1.fc = 4000 := rfl
  have hfy : scenario1.fy = 60000 := rfl
  rw [hfc, hfy]
  simp only [calculateRhoMin]
  apply max_le
  · have hs : Real.sqrt 4000 ≤ 31600 / 129 := by
      rw [Real.sqrt_le_left (by norm_num : (0 : ℝ) ≤ 31600 / 129)]
      norm_num
    rw [div_le_div_iff (by norm_num : (0 : ℝ) < 60000)
      (by norm_num : (0 : ℝ) < 6450)]
    nlinarith [hs]
  · norm_num

/-- Scenario-1 helper: the full validity check passes. -/
lemma scenario1_isValid : (calculateBeamStrength scenario1).isValid := by
  rw [calcBS_isValid]
  refine ⟨?_, scenario1_meetsMin, ?_, ?_⟩
  · rw [scenario1_rho, scenario1_rhoMax]
    norm_num
  · show (21.5 : ℝ) < 24
    norm_num
  · show (3.16 : ℝ) > 0
    norm_num

/-- C6 counterexample: at Scenario 1's input (`b=12, h=24, d=21.5, fc=4000,
fy=60000, As=3.16`) the code yields `a = 79/17 ≈ 4.65`, which is not within
any reasonable tolerance of the claimed 3.10, and
`phiMn = 4635720/17 ≈ 272689.4`, which is not in the claimed range
`[280, 300]`. -/
theorem scenario1_claim_counterexample :
    ¬ (|(calculateBeamStrength scenario1).a - 3.10| ≤ 0.5) ∧
    ¬ (280 ≤ (calculateBeamStrength scenario1).phiMn ∧
        (calculateBeamStrength scenario1).phiMn ≤ 300) := by
  constructor
  · intro hcon
    rw [scenario1_a, abs_le] at hcon
    have h := hcon.2
    norm_num at h
  · intro hcon
    rw [scenario1_phiMn] at hcon
    have h := hcon.2
    norm_num at h

/-- C6 amended: at Scenario 1's input `calculateBeamStrength` returns
`a = 79/17 ≈ 4.65`, `phi = 0.90` (tension-controlled, `epsilonT ≈ 0.0088`
well above 0.005), `phiMn = 4635720/17 ≈ 272689.4` in the code's raw number
scale (≈ 272.7 kip-ft on the spec's reading, below the claimed 280–300
range), and `isValid = true`. -/
theorem scenario1_values :
    (calculateBeamStrength scenario1).a = 79 / 17 ∧
    (calculateBeamStrength scenario1).phi = 0.9 ∧
    (calculateBeamStrength scenario1).phiMn = 4635720 / 17 ∧
    (calculateBeamStrength scenario1).isValid :=
  ⟨scenario1_a, scenario1_phi, scenario1_phiMn, scenario1_isValid⟩

/-- C10: for every `BeamSection` with `As = 0` and positive `b, d, fc, fy`,
`calculateBeamStrength` returns `rho = 0`, `a = 0`, `Mn = 0`, `phiMn = 0`
and `isValid = false`. -/
theorem calculateBeamStrength_zero_steel (input : BeamInput)
    (hAs : input.As = 0) (hb : 0 < input.b) (hd : 0 < input.d)
    (hfc : 0 < input.fc) (hfy : 0 < input.fy) :
    (calculateBeamStrength input).rho = 0 ∧
    (calculateBeamStrength input).a = 0 ∧
    (calculateBeamStrength input).Mn = 0 ∧
    (calculateBeamStrength input).phiMn = 0 ∧
    ¬ (calculateBeamStrength input).isValid := by
  have hMn : (calculateBeamStrength input).Mn = 0 := by
    rw [calcBS_Mn, hAs, zero_mul, zero_mul, zero_div]
  refine ⟨?_, ?_, hMn, ?_, ?_⟩
  · rw [calcBS_rho, hAs, zero_div]
  · rw [calcBS_a, hAs, zero_mul, zero_div]
  · rw [calcBS_phiMn, hMn, mul_zero]
  · rw [calcBS_isValid]
    rintro ⟨-, -, -, hpos⟩
    rw [hAs] at hpos
    exact lt_irrefl 0 hpos

/-- Witness for C10: the zero-steel conclusion at a concrete section. -/
theorem calculateBeamStrength_zero_steel_witness :
    (calculateBeamStrength ⟨12, 24, 21.5, 4000, 60000, 0, 4⟩).rho = 0 ∧
    (calculateBeamStrength ⟨12, 24, 21.5, 4000, 60000, 0, 4⟩).a = 0 ∧
    (calculateBeamStrength ⟨12, 24, 21.5, 4000, 60000, 0, 4⟩).Mn = 0 ∧
    (calculateBeamStrength ⟨12, 24, 21.5, 4000, 60000, 0, 4⟩).phiMn = 0 ∧
    ¬ (calculateBeamStrength ⟨12, 24, 21.5, 4000, 60000, 0, 4⟩).isValid :=
  calculateBeamStrength_zero_steel ⟨12, 24, 21.5, 4000, 60000, 0, 4⟩ rfl
    (by norm_num) (by norm_num) (by norm_num) (by norm_num)

end BeamCalc

namespace BeamCalcJS

/-- Shared helper: a finite value divided by finite zero is never finite
(it is a signed infinity or `NaN`). -/
lemma div_fin_zero (x : ℝ) :
    JSNum.isFinite (JSNum.div (JSNum.fin x) (JSNum.fin 0)) = false := by
  simp only [JSNum.div, if_pos rfl]
  split_ifs <;> rfl

/-- Shared helper: the `rho` field of the JS-semantics result, by
definition. -/
lemma calcBSJS_rho (input : BeamCalc.BeamInput) :
    (calculateBeamStrength input).rho =
      JSNum.div (JSNum.fin input.As)
        (JSNum.mul (JSNum.fin input.b) (JSNum.fin input.d)) := rfl

/-- Shared helper: the `a` field of the JS-semantics result, by
definition. -/
lemma calcBSJS_a (input : BeamCalc.BeamInput) :
    (calculateBeamStrength input).a =
      JSNum.div (JSNum.mul (JSNum.fin input.As) (JSNum.fin input.fy))
        (JSNum.mul (JSNum.mul (JSNum.fin 0.85) (JSNum.fin input.fc))
          (JSNum.fin input.b)) := rfl

/-- C9: `calculateBeamStrength` is total (the embedding returns a fully
populated record for every input by construction, mirroring the source's
lack of any throw path), and under JavaScript number semantics the
degenerate inputs `b = 0`, `d = 0` or `fc = 0` make a division by zero
surface as an infinite or `NaN` value in the result (in `rho` when `b` or
`d` is zero, in `a` when `fc` is zero) rather than as a distinguishable
error. -/
theorem calculateBeamStrengthJS_total_degenerate (input : BeamCalc.BeamInput)
    (h : input.b = 0 ∨ input.d = 0 ∨ input.fc = 0) :
    (calculateBeamStrength input).rho.isFinite = false ∨
    (calculateBeamStrength input).a.isFinite = false := by
  rcases h with hb | hd | hfc
  · left
    rw [calcBSJS_rho]
    have hmul : JSNum.mul (JSNum.fin input.b) (JSNum.fin input.d) =
        JSNum.fin 0 := by
      simp only [JSNum.mul]
      rw [hb, zero_mul]
    rw [hmul]
    exact div_fin_zero _
  · left
    rw [calcBSJS_rho]
    have hmul : JSNum.mul (JSNum.fin input.b) (JSNum.fin input.d) =
        JSNum.fin 0 := by
      simp only [JSNum.mul]
      rw [hd, mul_zero]
    rw [hmul]
    exact div_fin_zero _
  · right
    rw [calcBSJS_a]
    have hmul : JSNum.mul (JSNum.mul (JSNum.fin 0.85) (JSNum.fin input.fc))
        (JSNum.fin input.b) = JSNum.fin 0 := by
      simp only [JSNum.mul]
      rw [hfc, mul_zero, zero_mul]
    rw [hmul]
    exact div_fin_zero _

/-- Witness for C9: a zero-width section hits the degenerate path. -/
theorem calculateBeamStrengthJS_total_degenerate_witness :
    (calculateBeamStrength ⟨0, 24, 21.5, 4000, 60000, 3.16, 4⟩).rho.isFinite =
      false ∨
    (calculateBeamStrength ⟨0, 24, 21.5, 4000, 60000, 3.16, 4⟩).a.isFinite =
      false :=
  calculateBeamStrengthJS_total_degenerate ⟨0, 24, 21.5, 4000, 60000, 3.16, 4⟩
    (Or.inl rfl)

/-- Shared helper: subtraction of finite values is exact. -/
lemma fin_sub_fin (a b : ℝ) :
    JSNum.fin a - JSNum.fin b = JSNum.fin (a - b) := rfl

/-- Shared helper: addition of finite values is exact. -/
lemma fin_add_fin (a b : ℝ) :
    JSNum.fin a + JSNum.fin b = JSNum.fin (a + b) := rfl

/-- Shared helper: multiplication of finite values is exact. -/
lemma fin_mul_fin (a b : ℝ) :
    JSNum.fin a * JSNum.fin b = JSNum.fin (a * b) := rfl

/-- Shared helper: division of finite values with nonzero divisor is
exact. -/
lemma fin_div_fin (a b : ℝ) (hb : b ≠ 0) :
    JSNum.fin a / JSNum.fin b = JSNum.fin (a / b) := by
  show JSNum.div (JSNum.fin a) (JSNum.fin b) = JSNum.fin (a / b)
  simp only [JSNum.div]
  rw [if_neg hb]

/-- Shared helper: a positive finite value divided by zero is `+∞`. -/
lemma fin_div_zero_pos (a : ℝ) (ha : 0 < a) :
    JSNum.fin a / JSNum.fin 0 = JSNum.posInf := by
  show JSNum.div (JSNum.fin a) (JSNum.fin 0) = JSNum.posInf
  simp only [JSNum.div]
  rw [if_pos trivial, if_pos ha]

/-- Shared helper: the real-number `calculateBeta1` is strictly positive for
every argument. -/
lemma beta1_pos (fc : ℝ) : 0 < BeamCalc.calculateBeta1 fc := by
  rw [BeamCalc.calculateBeta1]
  split_ifs with h1 h2
  · norm_num [BeamCalc.BETA1_FC_4000]
  · norm_num [BeamCalc.BETA1_FC_8000]
  · simp only [not_le, ge_iff_le] at h1 h2
    have hlt : (fc - 4000) / 4000 < 1 := by
      rw [div_lt_one (by norm_num : (0 : ℝ) < 4000)]
      linarith
    simp only [BeamCalc.BETA1_FC_4000, BeamCalc.BETA1_FC_8000]
    nlinarith [hlt]

/-- Shared helper: on finite arguments the JS-semantics `calculateBeta1`
agrees with the real-number one. -/
lemma calculateBeta1_fin (x : ℝ) :
    calculateBeta1 (JSNum.fin x) = JSNum.fin (BeamCalc.calculateBeta1 x) := by
  by_cases h1 : x ≤ 4000
  · rw [calculateBeta1,
      if_pos (show JSNum.fin x ≤ JSNum.fin 4000 from h1),
      BeamCalc.calculateBeta1, if_pos h1]
  · by_cases h2 : (8000 : ℝ) ≤ x
    · rw [calculateBeta1,
        if_neg (show ¬ JSNum.fin x ≤ JSNum.fin 4000 from h1),
        if_pos (show JSNum.fin 8000 ≤ JSNum.fin x from h2),
        BeamCalc.calculateBeta1, if_neg h1, if_pos (show x ≥ 8000 from h2)]
    · rw [calculateBeta1,
        if_neg (show ¬ JSNum.fin x ≤ JSNum.fin 4000 from h1),
        if_neg (show ¬ JSNum.fin 8000 ≤ JSNum.fin x from h2),
        BeamCalc.calculateBeta1, if_neg h1, if_neg (show ¬ x ≥ 8000 from h2)]
      simp only [fin_sub_fin]
      rw [fin_div_fin _ _ (by norm_num : (4000 : ℝ) ≠ 0)]
      simp only [fin_mul_fin, fin_sub_fin]

/-- Shared helper: on finite arguments the JS-semantics `calculatePhi`
agrees with the real-number one. -/
lemma calculatePhi_fin (x : ℝ) :
    calculatePhi (JSNum.fin x) = JSNum.fin (BeamCalc.calculatePhi x) := by
  by_cases h1 : BeamCalc.EPSILON_Y_MIN ≤ x
  · rw [calculatePhi,
      if_pos (show JSNum.fin BeamCalc.EPSILON_Y_MIN ≤ JSNum.fin x from h1),
      BeamCalc.calculatePhi, if_pos (show x ≥ BeamCalc.EPSILON_Y_MIN from h1)]
  · by_cases h2 : x ≤ 0.002
    · rw [calculatePhi,
        if_neg (show ¬ JSNum.fin BeamCalc.EPSILON_Y_MIN ≤ JSNum.fin x
          from h1),
        if_pos (show JSNum.fin x ≤ JSNum.fin 0.002 from h2),
        BeamCalc.calculatePhi,
        if_neg (show ¬ x ≥ BeamCalc.EPSILON_Y_MIN from h1), if_pos h2]
    · rw [calculatePhi,
        if_neg (show ¬ JSNum.fin BeamCalc.EPSILON_Y_MIN ≤ JSNum.fin x
          from h1),
        if_neg (show ¬ JSNum.fin x ≤ JSNum.fin 0.002 from h2),
        BeamCalc.calculatePhi,
        if_neg (show ¬ x ≥ BeamCalc.EPSILON_Y_MIN from h1), if_neg h2]
      simp only [fin_sub_fin]
      rw [fin_div_fin _ _
        (by norm_num [BeamCalc.EPSILON_Y_MIN] :
          BeamCalc.EPSILON_Y_MIN - 0.002 ≠ 0)]
      simp only [fin_mul_fin, fin_add_fin]

/-- Shared helper: an infinite tensile strain classifies as
tension-controlled. -/
lemma calculatePhi_posInf : calculatePhi JSNum.posInf = JSNum.fin 0.9 := by
  rw [calculatePhi,
    if_pos (show JSNum.fin BeamCalc.EPSILON_Y_MIN ≤ JSNum.posInf
      from trivial)]

/-- Shared helper: a `NaN` tensile strain poisons `calculatePhi` (both
comparisons are false, and the interpolation arithmetic propagates `NaN`). -/
lemma calculatePhi_nan : calculatePhi JSNum.nan = JSNum.nan := by
  rw [calculatePhi,
    if_neg (show ¬ JSNum.fin BeamCalc.EPSILON_Y_MIN ≤ JSNum.nan
      from fun hcon => hcon),
    if_neg (show ¬ JSNum.nan ≤ JSNum.fin 0.002 from fun hcon => hcon)]
  rfl

/-- Shared helper: the `c` field of the JS-semantics result, by
definition. -/
lemma calcBSJS_c (input : BeamCalc.BeamInput) :
    (calculateBeamStrength input).c =
      (calculateBeamStrength input).a / calculateBeta1 (JSNum.fin input.fc) :=
  rfl

/-- Shared helper: the `epsilonT` field of the JS-semantics result, by
definition. -/
lemma calcBSJS_epsilonT (input : BeamCalc.BeamInput) :
    (calculateBeamStrength input).epsilonT =
      JSNum.fin BeamCalc.EPSILON_C_MAX *
          (JSNum.fin input.d - (calculateBeamStrength input).c) /
        (calculateBeamStrength input).c := rfl

/-- Shared helper: the `phi` field of the JS-semantics result, by
definition. -/
lemma calcBSJS_phi (input : BeamCalc.BeamInput) :
    (calculateBeamStrength input).phi =
      calculatePhi ((calculateBeamStrength input).epsilonT) := rfl

/-- Shared helper: at the zero-width section the tensile strain is `NaN`
(`a = +∞`, `c = +∞`, so `epsilonT = 0.003·(d−∞)/∞ = (−∞)/∞ = NaN`), hence
the program's `phi` is `NaN`. -/
lemma zeroWidth_phi_nan :
    (calculateBeamStrength zeroWidthSection).phi = JSNum.nan := by
  have ha : (calculateBeamStrength zeroWidthSection).a = JSNum.posInf := by
    rw [calcBSJS_a]
    simp only [zeroWidthSection, JSNum.mul, JSNum.div]
    rw [if_pos (by norm_num : (0.85 : ℝ) * 4000 * 0 = 0),
      if_pos (by norm_num : (0 : ℝ) < 3.16 * 60000)]
  have hc : (calculateBeamStrength zeroWidthSection).c = JSNum.posInf := by
    rw [calcBSJS_c, ha,
      show zeroWidthSection.fc = (4000 : ℝ) from rfl,
      calculateBeta1_fin, BeamCalc.beta1_at_4000]
    show JSNum.div JSNum.posInf (JSNum.fin 0.85) = JSNum.posInf
    simp only [JSNum.div]
    rw [if_pos (by norm_num : (0 : ℝ) ≤ 0.85)]
  have heps : (calculateBeamStrength zeroWidthSection).epsilonT =
      JSNum.nan := by
    rw [calcBSJS_epsilonT, hc,
      show JSNum.fin zeroWidthSection.d - JSNum.posInf = JSNum.negInf
        from rfl]
    show JSNum.div (JSNum.mul (JSNum.fin BeamCalc.EPSILON_C_MAX)
      JSNum.negInf) JSNum.posInf = JSNum.nan
    simp only [JSNum.mul]
    rw [if_pos (by norm_num [BeamCalc.EPSILON_C_MAX] :
      (0 : ℝ) < BeamCalc.EPSILON_C_MAX)]
    rfl
  rw [calcBSJS_phi, heps, calculatePhi_nan]

/-- C8 counterexample: at the degenerate input `b = 0` (the other fields
Scenario 1's), the program's `phi` field is `NaN`: it is no finite value in
`[0.65, 0.90]`, and even the program's own comparisons `0.65 <= phi` and
`phi <= 0.90` are both false. So the for-every-input claim fails. -/
theorem calculateBeamStrengthJS_phi_nan_counterexample :
    (calculateBeamStrength zeroWidthSection).phi = JSNum.nan ∧
    ¬ (∃ r : ℝ, (calculateBeamStrength zeroWidthSection).phi = JSNum.fin r ∧
        0.65 ≤ r ∧ r ≤ 0.90) ∧
    ¬ (JSNum.fin 0.65 ≤ (calculateBeamStrength zeroWidthSection).phi ∧
        (calculateBeamStrength zeroWidthSection).phi ≤ JSNum.fin 0.90) := by
  refine ⟨zeroWidth_phi_nan, ?_, ?_⟩
  · rintro ⟨r, hr, -, -⟩
    rw [zeroWidth_phi_nan] at hr
    exact JSNum.noConfusion hr
  · rintro ⟨h1, -⟩
    rw [zeroWidth_phi_nan] at h1
    exact h1

/-- C8 amended: for every `BeamSection` input in the spec's declared input
domain (`b > 0`, `d > 0`, `fc > 0`, `fy > 0`, `As ≥ 0`), the `phi` field of
the result is a finite value in the closed interval `[0.65, 0.90]`, under
the faithful JavaScript number semantics (with `As = 0` the strain is `+∞`
and `phi = 0.90`; degenerate zero inputs outside this domain give `NaN`). -/
theorem calculateBeamStrengthJS_phi_range (input : BeamCalc.BeamInput)
    (hb : 0 < input.b) (hd : 0 < input.d) (hfc : 0 < input.fc)
    (hfy : 0 < input.fy) (hAs : 0 ≤ input.As) :
    ∃ r : ℝ, (calculateBeamStrength input).phi = JSNum.fin r ∧
      0.65 ≤ r ∧ r ≤ 0.90 := by
  have hD0 : 0 < 0.85 * input.fc * input.b :=
    mul_pos (mul_pos (by norm_num) hfc) hb
  have ha : (calculateBeamStrength input).a =
      JSNum.fin (input.As * input.fy / (0.85 * input.fc * input.b)) := by
    rw [calcBSJS_a]
    show JSNum.div (JSNum.fin (input.As * input.fy))
      (JSNum.fin (0.85 * input.fc * input.b)) = _
    simp only [JSNum.div]
    rw [if_neg (ne_of_gt hD0)]
  have hbpos : 0 < BeamCalc.calculateBeta1 input.fc := beta1_pos input.fc
  have hc : (calculateBeamStrength input).c =
      JSNum.fin (input.As * input.fy / (0.85 * input.fc * input.b) /
        BeamCalc.calculateBeta1 input.fc) := by
    rw [calcBSJS_c, ha, calculateBeta1_fin,
      fin_div_fin _ _ (ne_of_gt hbpos)]
  rcases eq_or_lt_of_le hAs with hzero | hpos
  · have hcz : (calculateBeamStrength input).c = JSNum.fin 0 := by
      rw [hc, ← hzero]
      norm_num
    have heps : (calculateBeamStrength input).epsilonT = JSNum.posInf := by
      rw [calcBSJS_epsilonT, hcz, fin_sub_fin, fin_mul_fin]
      exact fin_div_zero_pos _
        (mul_pos
          (by norm_num [BeamCalc.EPSILON_C_MAX] :
            (0 : ℝ) < BeamCalc.EPSILON_C_MAX)
          (by rwa [sub_zero]))
    rw [calcBSJS_phi, heps, calculatePhi_posInf]
    exact ⟨0.9, rfl, by norm_num, by norm_num⟩
  · have hcpos : 0 < input.As * input.fy / (0.85 * input.fc * input.b) /
        BeamCalc.calculateBeta1 input.fc :=
      div_pos (div_pos (mul_pos hpos hfy) hD0) hbpos
    have heps : (calculateBeamStrength input).epsilonT =
        JSNum.fin (BeamCalc.EPSILON_C_MAX *
          (input.d - input.As * input.fy / (0.85 * input.fc * input.b) /
            BeamCalc.calculateBeta1 input.fc) /
          (input.As * input.fy / (0.85 * input.fc * input.b) /
            BeamCalc.calculateBeta1 input.fc)) := by
      rw [calcBSJS_epsilonT, hc, fin_sub_fin, fin_mul_fin,
        fin_div_fin _ _ (ne_of_gt hcpos)]
    rw [calcBSJS_phi, heps, calculatePhi_fin]
    exact ⟨_, rfl, (BeamCalc.calculatePhi_mem _).1,
      (BeamCalc.calculatePhi_mem _).2⟩

/-- Witness for amended C8: the in-domain Scenario 1 section has a finite
`phi` in `[0.65, 0.90]`. -/
theorem calculateBeamStrengthJS_phi_range_witness :
    ∃ r : ℝ,
      (calculateBeamStrength ⟨12, 24, 21.5, 4000, 60000, 3.16, 4⟩).phi =
        JSNum.fin r ∧ 0.65 ≤ r ∧ r ≤ 0.90 :=
  calculateBeamStrengthJS_phi_range ⟨12, 24, 21.5, 4000, 60000, 3.16, 4⟩
    (by norm_num) (by norm_num) (by norm_num) (by norm_num) (by norm_num)

end BeamCalcJS
